import Mathlib

set_option maxRecDepth 8000

/-!
# Verification of the hottohts protocol driver

Shallow embedding of the hottohts TypeScript driver for HottoH pellet
stoves: the wire-frame encoder (`request.ts`), the response accumulator and
polling state machine (`client.ts`), and the register/bitfield decoding of
the high-level API (`hottoht.ts`).  Machine integers are modelled as `Nat`
with explicit masking; JavaScript `null`/`undefined` results are modelled
as `Option`.
-/

namespace Hottoh

/-! ## Hex rendering and UTF-8 bytes

`natToHexU n` models the JavaScript expression
`n.toString(16).toUpperCase()`; `pad4` models `.padStart(4, '0')`.
-/

/-- `n.toString(16).toUpperCase()`: uppercase hexadecimal rendering of a
natural number, `"0"` for zero. -/
def natToHexU (n : Nat) : String :=
  String.mk ((Nat.toDigits 16 n).map Char.toUpper)

/-- `s.padStart(4, '0')`: left-pad with `'0'` to at least four characters. -/
def pad4 (s : String) : String :=
  if s.length < 4 then String.mk (List.replicate (4 - s.length) '0') ++ s else s

/-- UTF-8 encoding of one character (code point), as byte values.
Models the encoding performed by `Buffer.from(s, 'utf-8')`. -/
def charUtf8 (c : Char) : List Nat :=
  let n := c.toNat
  if n < 0x80 then [n]
  else if n < 0x800 then
    [0xC0 ||| (n >>> 6), 0x80 ||| (n &&& 0x3F)]
  else if n < 0x10000 then
    [0xE0 ||| (n >>> 12), 0x80 ||| ((n >>> 6) &&& 0x3F), 0x80 ||| (n &&& 0x3F)]
  else
    [0xF0 ||| (n >>> 18), 0x80 ||| ((n >>> 12) &&& 0x3F),
     0x80 ||| ((n >>> 6) &&& 0x3F), 0x80 ||| (n &&& 0x3F)]

/-- The UTF-8 bytes of a string (`Buffer.from(s, 'utf-8')`). -/
def utf8Bytes (s : String) : List Nat :=
  s.data.flatMap charUtf8

/-! ## CRC-16/CCITT-FALSE

Models the npm `crc` package's `crc16ccitt` (an external dependency of
`request.ts`), which implements CRC-16/CCITT-FALSE: polynomial `0x1021`,
initial value `0xFFFF`, no input or output reflection, no final XOR.
The 16-bit register is a `Nat` kept below `2^16` by explicit masking. -/

/-- One shift step: shift left; if the bit shifted out was set, XOR in the
polynomial `0x1021`.  Result masked to 16 bits. -/
def crcShift (c : Nat) : Nat :=
  if c &&& 0x8000 ≠ 0 then ((c <<< 1) ^^^ 0x1021) &&& 0xFFFF
  else (c <<< 1) &&& 0xFFFF

/-- Fold one input byte into the CRC register (XOR into the high byte,
then eight shift steps). -/
def crcFoldByte (c b : Nat) : Nat :=
  let c := (c ^^^ ((b &&& 0xFF) <<< 8)) &&& 0xFFFF
  crcShift (crcShift (crcShift (crcShift (crcShift (crcShift (crcShift (crcShift c)))))))

/-- CRC-16/CCITT-FALSE of a byte sequence. -/
def crc16ccitt (bs : List Nat) : Nat :=
  bs.foldl crcFoldByte 0xFFFF

/-- Sanity anchor: the modelled CRC matches the published CRC-16/CCITT-FALSE
check value `0x29B1` for the standard test input `"123456789"`. -/
theorem crc16ccitt_check_value : crc16ccitt (utf8Bytes "123456789") = 0x29B1 := by
  decide

/-! ## Frame encoder (`src/request.ts`, class `Request`)

The `Request` constructor stores `command`, `mode` and `parameters` and
immediately calls `_buildRawPacket`; the functions below are those methods
with the stored fields passed explicitly.  JavaScript's `paramString.length`
counts UTF-16 code units; it is modelled by `String.length` (code points),
which agrees on all BMP text. -/

/-- `Request._getParameters`: `this.parameters.join(';') + ";"`. -/
def Request.getParameters (parameters : List String) : String :=
  String.intercalate ";" parameters ++ ";"

/-- `Request._getRawData`: 4-digit uppercase hex length of the joined
parameter string, then command, mode, and the joined parameters. -/
def Request.getRawData (command mode : String) (parameters : List String) : String :=
  let paramString := Request.getParameters parameters
  let lenParameters := pad4 (natToHexU paramString.length)
  lenParameters ++ command ++ mode ++ paramString

/-- `Request._getCrc`: CRC-16/CCITT-FALSE of the message's UTF-8 bytes,
rendered as 4 uppercase zero-padded hex digits. -/
def Request.getCrc (message : String) : String :=
  pad4 (natToHexU (crc16ccitt (utf8Bytes message)))

/-- `Request._buildRawPacket`: the full wire frame
`"#" + strData + crc + "\n"` with `strData = "00000" + "C---" + rawData`. -/
def Request.buildRawPacket (command mode : String) (parameters : List String) : String :=
  let strSocketId := "00000"
  let strData := strSocketId ++ "C---" ++ Request.getRawData command mode parameters
  "#" ++ strData ++ Request.getCrc strData ++ "\n"

/-! Spec-side frame layout, following the words of the specification (§4.1):
join the parameters with `;` plus a trailing `;`; render the character count
of that joined string as 4 uppercase zero-padded hex digits; checksum the
UTF-8 bytes of the body running from `"00000"` through the joined
parameters with CRC-16/CCITT-FALSE; frame is
`"#" ++ "00000" ++ "C---" ++ paramLength ++ command ++ mode ++
joinedParameters ++ checksum ++ "\n"`. -/

/-- Spec-side: the parameters joined with `";"` plus a trailing `";"`. -/
def specJoinedParameters (parameters : List String) : String :=
  String.intercalate ";" parameters ++ ";"

/-- Spec-side: the character count of the joined string as 4 uppercase
zero-padded hexadecimal digits. -/
def specParamLength (parameters : List String) : String :=
  pad4 (natToHexU (specJoinedParameters parameters).length)

/-- Spec-side: the checksummed body, from `"00000"` through the joined
parameters. -/
def specBody (command mode : String) (parameters : List String) : String :=
  "00000" ++ "C---" ++ specParamLength parameters ++ command ++ mode ++
    specJoinedParameters parameters

/-- Spec-side: the complete frame as described by the claim. -/
def specFrame (command mode : String) (parameters : List String) : String :=
  "#" ++ "00000" ++ "C---" ++ specParamLength parameters ++ command ++ mode ++
    specJoinedParameters parameters ++
    pad4 (natToHexU (crc16ccitt (utf8Bytes (specBody command mode parameters)))) ++ "\n"

/-- C1: for every command, mode and parameter list, the encoder produces
exactly the frame `"#" ++ "00000" ++ "C---" ++ paramLength ++ command ++
mode ++ joinedParameters ++ checksum ++ "\n"`, where `paramLength` is the
character count of the `";"`-joined parameter string (with trailing `";"`)
as 4 uppercase zero-padded hex digits and `checksum` is the
CRC-16/CCITT-FALSE of the UTF-8 bytes of the body from `"00000"` through
the joined parameters, as 4 uppercase zero-padded hex digits.  The second
conjunct evaluates one concrete frame in full. -/
theorem frame_encoding_matches_spec :
    (∀ (command mode : String) (parameters : List String),
      Request.buildRawPacket command mode parameters = specFrame command mode parameters)
    ∧ Request.buildRawPacket "DAT" "R" ["0"] = "#00000C---0002DATR0;B6FC\n" := by
  constructor
  · intro command mode parameters
    simp only [Request.buildRawPacket, Request.getRawData, Request.getCrc,
      Request.getParameters, specFrame, specBody, specParamLength,
      specJoinedParameters, String.append_assoc]
  · decide

/-! ## Response splitting (`client.ts`)

JavaScript `s.split(sep)` for a one-character separator: split on every
occurrence, keeping empty segments (so `"0;".split(';') = ["0", ""]` and
`"".split(';') = [""]`). -/

/-- Character-level model of JavaScript `String.prototype.split` with a
single-character separator. -/
def splitChar (sep : Char) : List Char → List (List Char)
  | [] => [[]]
  | c :: cs =>
    match splitChar sep cs with
    | [] => [[]]
    | h :: t => if c = sep then [] :: h :: t else (c :: h) :: t

/-- `HottohRemoteClient._extractData`: `data.split(';')`. -/
def extractData (data : String) : List String :=
  (splitChar ';' data.data).map String.mk

theorem splitChar_ne_nil (sep : Char) (cs : List Char) : splitChar sep cs ≠ [] := by
  cases cs with
  | nil => simp [splitChar]
  | cons c cs =>
    simp only [splitChar]
    rcases h : splitChar sep cs with _ | ⟨h', t⟩
    · simp
    · by_cases hc : c = sep <;> simp [hc]

/-- Splitting `p ++ sep :: rest` where `p` is separator-free peels off `p`. -/
theorem splitChar_append_sep (sep : Char) (p rest : List Char) (hp : sep ∉ p) :
    splitChar sep (p ++ sep :: rest) = p :: splitChar sep rest := by
  induction p with
  | nil =>
    simp only [List.nil_append, splitChar]
    rcases h : splitChar sep rest with _ | ⟨h', t⟩
    · exact absurd h (splitChar_ne_nil sep rest)
    · simp
  | cons c p ih =>
    have hc : c ≠ sep := fun h => hp (h ▸ List.mem_cons_self c p)
    have hp' : sep ∉ p := fun h => hp (List.mem_cons_of_mem c h)
    simp only [List.cons_append, splitChar, List.append_eq, ih hp', if_neg hc]

/-- Splitting a separator-free list followed by one trailing separator. -/
theorem splitChar_append_sep_nil (sep : Char) (p : List Char) (hp : sep ∉ p) :
    splitChar sep (p ++ [sep]) = [p, []] := by
  have := splitChar_append_sep sep p [] hp
  simpa [splitChar] using this

/-- The first segment produced by `splitChar` is the longest separator-free
prefix: `split(sep)[0] = takeWhile (· ≠ sep)`. -/
theorem splitChar_head (sep : Char) (cs : List Char) :
    (splitChar sep cs).headD [] = cs.takeWhile (fun c => c ≠ sep) := by
  induction cs with
  | nil => simp [splitChar]
  | cons c cs ih =>
    simp only [splitChar, List.takeWhile_cons]
    rcases h : splitChar sep cs with _ | ⟨h', t⟩
    · exact absurd h (splitChar_ne_nil sep cs)
    · by_cases hc : c = sep
      · simp [hc]
      · simp only [if_neg hc, List.headD_cons, decide_eq_true hc]
        rw [h] at ih
        simp only [List.headD_cons] at ih
        simp [hc, ih]

/-! ## Join/split round trip (claim C7) -/

theorem intercalate_go_data (as : List String) (acc s : String) :
    (String.intercalate.go acc s as).data =
      acc.data ++ as.flatMap (fun a => s.data ++ a.data) := by
  induction as generalizing acc with
  | nil => simp [String.intercalate.go]
  | cons a as ih =>
    simp [String.intercalate.go, ih, String.data_append, List.append_assoc]

theorem intercalate_data_cons (s p : String) (ps : List String) :
    (String.intercalate s (p :: ps)).data =
      p.data ++ ps.flatMap (fun a => s.data ++ a.data) := by
  simp [String.intercalate, intercalate_go_data]

/-- Splitting the `";"`-joined, `";"`-terminated concatenation of
semicolon-free segments recovers the segments plus one empty tail. -/
theorem splitChar_join (p : List Char) (ps : List (List Char))
    (hp : ';' ∉ p) (hps : ∀ q ∈ ps, ';' ∉ q) :
    splitChar ';' (p ++ ps.flatMap (fun a => ';' :: a) ++ [';']) =
      p :: (ps ++ [[]]) := by
  induction ps generalizing p with
  | nil => simpa using splitChar_append_sep_nil ';' p hp
  | cons q rest ih =>
    have hq : ';' ∉ q := hps q (List.mem_cons_self q rest)
    have hrest : ∀ r ∈ rest, ';' ∉ r := fun r hr => hps r (List.mem_cons_of_mem q hr)
    have harr : p ++ (q :: rest).flatMap (fun a => ';' :: a) ++ [';'] =
        p ++ ';' :: (q ++ rest.flatMap (fun a => ';' :: a) ++ [';']) := by
      simp [List.flatMap_cons, List.append_assoc]
    rw [harr, splitChar_append_sep ';' p _ hp, ih q hq hrest]
    simp

theorem mk_data_eq (s : String) : String.mk s.data = s := by
  cases s
  rfl

/-- C7 counterexample: decoding the payload section of `encode(["0"])` as
the response decoder does — splitting on `";"` — yields `["0", ""]`, not
`["0"]`: the trailing `";"` produces a final empty field, so the claimed
round trip `decode(encode(P)) = P` fails at `P = ["0"]`. -/
theorem join_split_no_exact_roundtrip :
    extractData (Request.getParameters ["0"]) ≠ ["0"]
    ∧ extractData (Request.getParameters ["0"]) = ["0", ""] := by
  constructor
  · decide
  · decide

/-- C7 (amended): for every nonempty parameter list `P` whose entries
contain no `";"`, splitting the joined-parameters text of `encode(P)` on
`";"` yields exactly `P` followed by one trailing empty string. -/
theorem join_split_roundtrip (ps : List String) (hne : ps ≠ [])
    (hsemi : ∀ p ∈ ps, ';' ∉ p.data) :
    extractData (Request.getParameters ps) = ps ++ [""] := by
  match ps, hne with
  | p :: ps, _ =>
    have hp : ';' ∉ p.data := hsemi p (List.mem_cons_self p ps)
    have hps : ∀ q ∈ ps.map String.data, ';' ∉ q := by
      intro q hq
      rcases List.mem_map.mp hq with ⟨a, ha, rfl⟩
      exact hsemi a (List.mem_cons_of_mem p ha)
    have hdata : (Request.getParameters (p :: ps)).data =
        p.data ++ (ps.map String.data).flatMap (fun a => ';' :: a) ++ [';'] := by
      simp only [Request.getParameters, String.data_append, intercalate_data_cons]
      simp [List.flatMap_map]
    rw [extractData, hdata,
      splitChar_join p.data (ps.map String.data) hp hps]
    simp only [List.map_cons, List.map_append, List.map_map, mk_data_eq]
    simp only [Function.comp_def, mk_data_eq, List.map_id]
    simp

/-- Closed witness for the amended round trip at `P = ["12", "34"]`. -/
theorem join_split_roundtrip_witness :
    (["12", "34"] : List String) ≠ []
    ∧ (∀ p ∈ (["12", "34"] : List String), ';' ∉ p.data)
    ∧ extractData (Request.getParameters ["12", "34"]) = ["12", "34", ""] :=
  ⟨by decide, by decide,
    by simpa using join_split_roundtrip ["12", "34"] (by decide) (by decide)⟩

/-! ## Response accumulator (claim C5)

The `onData` handler of `HottohRemoteClient._sendRequestAndWaitForResponse`:

```
this._responseBuffer += data.toString('utf-8');
if (this._responseBuffer.includes('\n')) {
    const [response] = this._responseBuffer.split('\n');
    this._responseBuffer = '';
    cleanup();
    resolve(this._extractData(response));
}
```

One call is modelled as a function of the current buffer and the incoming
chunk, returning the new buffer and the resolved field list, if any. -/

/-- One `onData` step: append the chunk; if the buffer now contains a
newline, resolve the first line split on `";"` and reset the buffer to the
empty string (the source discards everything after the first newline). -/
def accumStep (responseBuffer chunk : String) : String × Option (List String) :=
  let buf := responseBuffer ++ chunk
  if '\n' ∈ buf.data then
    match splitChar '\n' buf.data with
    | response :: _ => ("", some (extractData (String.mk response)))
    | [] => ("", none)
  else (buf, none)

/-- C5 counterexample: after the chunk `"A;B\nC"` completes a line, the
source resets the buffer to `""`, so the bytes `"C"` after the newline are
NOT preserved for the next call as the claim states. -/
theorem accumulator_discards_remainder :
    accumStep "" "A;B\nC" = ("", some ["A", "B"])
    ∧ (accumStep "" "A;B\nC").fst ≠ "C" := by
  constructor
  · decide
  · decide

/-- C5 (amended): appending a chunk that does not complete a line only
grows the buffer; once a chunk completes a line, the accumulator yields the
first complete line split on `";"` — and resets the internal buffer to
empty, discarding any bytes after that line's newline. -/
theorem accumulator_first_line (responseBuffer chunk : String) :
    ('\n' ∉ (responseBuffer ++ chunk).data →
      accumStep responseBuffer chunk = (responseBuffer ++ chunk, none))
    ∧ ('\n' ∈ (responseBuffer ++ chunk).data →
      accumStep responseBuffer chunk =
        ("", some (extractData (String.mk
          ((responseBuffer ++ chunk).data.takeWhile (fun c => c ≠ '\n')))))) := by
  constructor
  · intro h
    simp only [accumStep]
    rw [if_neg h]
  · intro h
    have hhead := splitChar_head '\n' (responseBuffer ++ chunk).data
    rcases hs : splitChar '\n' (responseBuffer ++ chunk).data with _ | ⟨response, rest⟩
    · exact absurd hs (splitChar_ne_nil '\n' (responseBuffer ++ chunk).data)
    · rw [hs] at hhead
      simp only [List.headD_cons] at hhead
      simp only [accumStep]
      rw [if_pos h, hs, hhead]

/-- Closed witness for `accumulator_first_line`: a line arriving split
across two reads — buffer `"A;"` then chunk `"B\nC"` — resolves
`["A", "B"]` and leaves an empty buffer. -/
theorem accumulator_first_line_witness :
    '\n' ∈ (("A;" : String) ++ "B\nC").data
    ∧ accumStep "A;" "B\nC" = ("", some ["A", "B"]) :=
  ⟨by decide, by
    have h := (accumulator_first_line "A;" "B\nC").2 (by decide)
    simpa using h⟩

/-! ## Polling state machine (`client.ts`, class `HottohRemoteClient`)

The mutable fields of `HottohRemoteClient` relevant to the poll loop are
gathered in `ClientState`.  The asynchronous exchanges of one `__dial`
invocation run strictly sequentially (each is `await`ed), so a cycle is
modelled as a pure function of the state and of an oracle giving, for the
`k`-th exchange attempted in the cycle, either the decoded response line
(`some fields`) or a failure (`none`, covering the 60-second response
timeout and socket errors, both of which reject the awaited promise and
land in the single `catch`).  Besides the new state, the model returns the
list of request exchanges performed, in order, and the delay in
milliseconds passed to `setTimeout` for the next `loop()` call (`none`
when no timer is scheduled). -/

/-- The wire mode of a request (`CommandMode` in `request.ts`). -/
inductive CmdMode
  | read
  | write
  | execute
deriving DecidableEq, Repr

/-- One request/response exchange as issued by the client: command, mode
and parameter list handed to `new Request(...)`. -/
structure Req where
  command : String
  mode : CmdMode
  parameters : List String
deriving DecidableEq, Repr

/-- `this._get_data('INF', [''])`. -/
def reqInf : Req := ⟨"INF", CmdMode.read, [""]⟩

/-- `this._get_data('DAT', [p])`. -/
def reqDat (p : String) : Req := ⟨"DAT", CmdMode.read, [p]⟩

/-- `this._set_data(param)`: command `DAT`, mode WRITE. -/
def reqWrite (param : List String) : Req := ⟨"DAT", CmdMode.write, param⟩

/-- The mutable fields of `HottohRemoteClient` driving the poll loop. -/
structure ClientState where
  info : Option (List String)
  data : Option (List String)
  data2 : Option (List String)
  writeParameters : List (List String)
  writeRequest : Bool
  isConnected : Bool
  endRequest : Bool
  loopTimeout : Bool
  socketEnded : Bool
deriving DecidableEq, Repr

/-- The `while (this._writeParameters.length > 0 && !this.__endRequest)`
drain loop of `__dial`: one write exchange per queue entry, `shift()` only
after the awaited exchange resolves.  Returns the write exchanges
performed, the remaining queue, and whether the loop finished without a
rejected exchange (a rejection aborts the loop before the `shift()`). -/
def drain (queue : List (List String)) (endReq : Bool)
    (oracle : Nat → Option (List String)) :
    List Req × List (List String) × Bool :=
  match queue with
  | [] => ([], [], true)
  | param :: rest =>
    if endReq then ([], param :: rest, true)
    else
      match oracle 0 with
      | none => ([reqWrite param], param :: rest, false)
      | some _ =>
        let r := drain rest endReq (fun k => oracle (k + 1))
        (reqWrite param :: r.1, r.2.1, r.2.2)

/-- One `__dial` invocation.  Mirrors `client.ts` lines 283–312: bail out
if disconnected or stopping; fetch `info`, `data`, `data2` in order, each
stored on success; drain the write queue; on success schedule the next
cycle after 1000 ms, on any rejection mark disconnected and schedule a
retry after 5000 ms (in both cases only when not stopping). -/
def dial (st : ClientState) (oracle : Nat → Option (List String)) :
    ClientState × List Req × Option Nat :=
  if !st.isConnected || st.endRequest then (st, [], none)
  else
    match oracle 0 with
    | none =>
      ({ st with isConnected := false }, [reqInf],
        if st.endRequest then none else some 5000)
    | some i =>
      let st1 := { st with info := some i }
      match oracle 1 with
      | none =>
        ({ st1 with isConnected := false }, [reqInf, reqDat "0"],
          if st.endRequest then none else some 5000)
      | some d =>
        let st2 := { st1 with data := some d }
        match oracle 2 with
        | none =>
          ({ st2 with isConnected := false }, [reqInf, reqDat "0", reqDat "2"],
            if st.endRequest then none else some 5000)
        | some d2 =>
          let st3 := { st2 with data2 := some d2 }
          let r := drain st3.writeParameters st3.endRequest (fun k => oracle (k + 3))
          if r.2.2 then
            ({ st3 with writeParameters := r.2.1, writeRequest := false },
              reqInf :: reqDat "0" :: reqDat "2" :: r.1,
              if st.endRequest then none else some 1000)
          else
            ({ st3 with writeParameters := r.2.1, isConnected := false },
              reqInf :: reqDat "0" :: reqDat "2" :: r.1,
              if st.endRequest then none else some 5000)

/-- `HottohRemoteClient.stop`: set the stop flag, clear any pending loop
timer, and disconnect (`__disconnect` clears the connected flag and ends
the socket). -/
def stop (st : ClientState) : ClientState :=
  { st with
    endRequest := true
    loopTimeout := false
    isConnected := false
    socketEnded := true }

/-- What `loop()` does when a timer fires (`client.ts` lines 242–256):
clear the timer, return immediately if stopping, otherwise dial when
connected and connect otherwise. -/
inductive LoopAction
  | idle
  | dialCycle
  | connectAttempt
deriving DecidableEq, Repr

/-- The branch taken by `loop()` on the given state. -/
def loopAction (st : ClientState) : LoopAction :=
  if st.endRequest then LoopAction.idle
  else if st.isConnected then LoopAction.dialCycle
  else LoopAction.connectAttempt

/-- If every queued entry's exchange succeeds, the drain performs one write
exchange per entry in FIFO order and empties the queue. -/
theorem drain_success (queue : List (List String))
    (oracle : Nat → Option (List String))
    (hq : ∀ k, k < queue.length → (oracle k).isSome) :
    drain queue false oracle = (queue.map reqWrite, [], true) := by
  induction queue generalizing oracle with
  | nil => simp [drain]
  | cons param rest ih =>
    have h0 : (oracle 0).isSome := hq 0 (by simp)
    rcases ho : oracle 0 with _ | v
    · rw [ho] at h0
      simp at h0
    · have hrest : ∀ k, k < rest.length → ((fun k => oracle (k + 1)) k).isSome := by
        intro k hk
        exact hq (k + 1) (by simpa using Nat.succ_lt_succ hk)
      simp [drain, ho, ih (fun k => oracle (k + 1)) hrest]

/-- If the exchange for the `j`-th queued entry fails after the first `j`
succeeded, the drain performs exactly one write exchange for entries
`0..j`, removes exactly the first `j` entries (the failed entry and all
later entries stay queued), and reports failure. -/
theorem drain_failure (queue : List (List String))
    (oracle : Nat → Option (List String)) (j : Nat)
    (hj : j < queue.length)
    (hsucc : ∀ k, k < j → (oracle k).isSome)
    (hfail : oracle j = none) :
    drain queue false oracle =
      ((queue.take (j + 1)).map reqWrite, queue.drop j, false) := by
  induction queue generalizing oracle j with
  | nil => exact absurd hj (by simp)
  | cons param rest ih =>
    cases j with
    | zero => simp [drain, hfail]
    | succ j =>
      have h0 : (oracle 0).isSome := hsucc 0 (Nat.succ_pos j)
      rcases ho : oracle 0 with _ | v
      · rw [ho] at h0
        simp at h0
      · have hsucc' : ∀ k, k < j → ((fun k => oracle (k + 1)) k).isSome :=
          fun k hk => hsucc (k + 1) (Nat.succ_lt_succ hk)
        have hfail' : (fun k => oracle (k + 1)) j = none := hfail
        have hj' : j < rest.length := Nat.lt_of_succ_lt_succ hj
        simp [drain, ho, ih (fun k => oracle (k + 1)) j hj' hsucc' hfail']

/-- C2: while connected and not stopped, a poll cycle in which every
exchange succeeds performs the three read exchanges in the fixed order
`INF ['']`, `DAT ['0']`, `DAT ['2']` (and nothing else in read mode),
stores each response wholesale in its snapshot slot, and schedules the
next cycle after the fixed 1000 ms delay. -/
theorem dial_poll_cycle (st : ClientState) (oracle : Nat → Option (List String))
    (i d d2 : List String)
    (hc : st.isConnected = true) (he : st.endRequest = false)
    (h0 : oracle 0 = some i) (h1 : oracle 1 = some d) (h2 : oracle 2 = some d2)
    (hq : ∀ k, k < st.writeParameters.length → (oracle (k + 3)).isSome) :
    (dial st oracle).1.info = some i
    ∧ (dial st oracle).1.data = some d
    ∧ (dial st oracle).1.data2 = some d2
    ∧ (dial st oracle).2.1 =
        reqInf :: reqDat "0" :: reqDat "2" :: st.writeParameters.map reqWrite
    ∧ (dial st oracle).2.1.filter (fun r => r.mode == CmdMode.read) =
        [reqInf, reqDat "0", reqDat "2"]
    ∧ (dial st oracle).2.2 = some 1000 := by
  have hdrain := drain_success st.writeParameters (fun k => oracle (k + 3)) hq
  simp only [dial, hc, he, Bool.not_true, Bool.or_false, Bool.false_eq_true,
    if_false, h0, h1, h2, hdrain]
  simp [List.filter_map, reqWrite, reqInf, reqDat, Function.comp]

/-- Closed witness for `dial_poll_cycle`: a freshly connected client with
an empty queue fetches the three snapshots and schedules a 1000 ms poll. -/
theorem dial_poll_cycle_witness :
    (dial ⟨none, none, none, [], false, true, false, false, false⟩
      (fun k => some [toString k])).1.info = some ["0"]
    ∧ (dial ⟨none, none, none, [], false, true, false, false, false⟩
      (fun k => some [toString k])).2.1 = [reqInf, reqDat "0", reqDat "2"]
    ∧ (dial ⟨none, none, none, [], false, true, false, false, false⟩
      (fun k => some [toString k])).2.2 = some 1000 := by
  have h := dial_poll_cycle ⟨none, none, none, [], false, true, false, false, false⟩
    (fun k => some [toString k]) ["0"] ["1"] ["2"] rfl rfl rfl rfl rfl
    (by intro k hk; simp at hk)
  exact ⟨h.1, by simpa using h.2.2.2.1, h.2.2.2.2.2⟩

/-- C3: after the three reads succeed, the write queue is drained in FIFO
submission order, one `DAT`/WRITE exchange per entry, each attempted at
most once per cycle.  If every exchange succeeds each entry is removed
(the queue ends empty); if the `j`-th write exchange fails the drain
stops, the failed entry and all later entries remain queued, the client
is marked disconnected and a 5000 ms retry is scheduled — no entry is
dropped. -/
theorem dial_drain_fifo (st : ClientState) (oracle : Nat → Option (List String))
    (i d d2 : List String)
    (hc : st.isConnected = true) (he : st.endRequest = false)
    (h0 : oracle 0 = some i) (h1 : oracle 1 = some d) (h2 : oracle 2 = some d2) :
    ((∀ k, k < st.writeParameters.length → (oracle (k + 3)).isSome) →
      (dial st oracle).2.1 =
        reqInf :: reqDat "0" :: reqDat "2" :: st.writeParameters.map reqWrite
      ∧ (dial st oracle).1.writeParameters = [])
    ∧ (∀ j, j < st.writeParameters.length →
        (∀ k, k < j → (oracle (k + 3)).isSome) →
        oracle (j + 3) = none →
      (dial st oracle).2.1 =
        reqInf :: reqDat "0" :: reqDat "2" ::
          (st.writeParameters.take (j + 1)).map reqWrite
      ∧ (dial st oracle).1.writeParameters = st.writeParameters.drop j
      ∧ (dial st oracle).1.isConnected = false
      ∧ (dial st oracle).2.2 = some 5000) := by
  constructor
  · intro hq
    have hdrain := drain_success st.writeParameters (fun k => oracle (k + 3)) hq
    simp [dial, hc, he, h0, h1, h2, hdrain]
  · intro j hj hsucc hfail
    have hdrain := drain_failure st.writeParameters (fun k => oracle (k + 3)) j hj
      hsucc hfail
    simp [dial, hc, he, h0, h1, h2, hdrain]

/-- Closed witness for `dial_drain_fifo`: a connected client with two
queued commands whose second write exchange fails keeps the failed entry
and finishes with the queue `[["20", "1"]] ++ []`-free, disconnected, with
a 5000 ms retry. -/
theorem dial_drain_fifo_witness :
    (dial
      ⟨none, none, none, [["10", "220"], ["20", "1"]], true, true, false, false, false⟩
      (fun k => if k == 4 then none else some ["R"])).2.1 =
      reqInf :: reqDat "0" :: reqDat "2" ::
        ([["10", "220"], ["20", "1"]].take 2).map reqWrite
    ∧ (dial
      ⟨none, none, none, [["10", "220"], ["20", "1"]], true, true, false, false, false⟩
      (fun k => if k == 4 then none else some ["R"])).1.writeParameters =
        [["10", "220"], ["20", "1"]].drop 1 := by
  have h := (dial_drain_fifo
    ⟨none, none, none, [["10", "220"], ["20", "1"]], true, true, false, false, false⟩
    (fun k => if k == 4 then none else some ["R"]) ["R"] ["R"] ["R"]
    rfl rfl rfl rfl rfl).2 1 (by decide)
    (by intro k hk; interval_cases k; decide) rfl
  exact ⟨h.1, h.2.1⟩

/-- C4: while connected and not stopped, a failed read exchange (response
timeout or socket error) aborts the remaining steps of the cycle, marks
the client disconnected, schedules a reconnect after the fixed 5000 ms
delay, and — because `dial` is a total function whose failure branch
returns the updated state rather than raising — propagates no error.  The
full-state equalities show that every snapshot slot not replaced by a
completed exchange keeps its previous value intact. -/
theorem dial_failure_preserves_snapshots (st : ClientState)
    (oracle : Nat → Option (List String))
    (hc : st.isConnected = true) (he : st.endRequest = false) :
    (oracle 0 = none →
      dial st oracle = ({ st with isConnected := false }, [reqInf], some 5000))
    ∧ (∀ i, oracle 0 = some i → oracle 1 = none →
      dial st oracle =
        ({ st with info := some i, isConnected := false },
          [reqInf, reqDat "0"], some 5000))
    ∧ (∀ i d, oracle 0 = some i → oracle 1 = some d → oracle 2 = none →
      dial st oracle =
        ({ st with info := some i, data := some d, isConnected := false },
          [reqInf, reqDat "0", reqDat "2"], some 5000)) := by
  refine ⟨fun h0 => ?_, fun i h0 h1 => ?_, fun i d h0 h1 h2 => ?_⟩
  · simp [dial, hc, he, h0]
  · simp [dial, hc, he, h0, h1]
  · simp [dial, hc, he, h0, h1, h2]

/-- Closed witness for `dial_failure_preserves_snapshots`: a timeout on the
second fetch leaves the prior `data`/`data2` snapshots intact. -/
theorem dial_failure_preserves_snapshots_witness :
    dial
      ⟨some ["old"], some ["oldD"], some ["oldD2"], [], false, true, false, false, false⟩
      (fun k => if k == 0 then some ["newI"] else none) =
    ({ info := some ["newI"], data := some ["oldD"], data2 := some ["oldD2"],
       writeParameters := [], writeRequest := false, isConnected := false,
       endRequest := false, loopTimeout := false, socketEnded := false },
      [reqInf, reqDat "0"], some 5000) := by
  have h := (dial_failure_preserves_snapshots
    ⟨some ["old"], some ["oldD"], some ["oldD2"], [], false, true, false, false, false⟩
    (fun k => if k == 0 then some ["newI"] else none) rfl rfl).2.1
    ["newI"] rfl rfl
  simpa using h

/-- C6: `stop()` sets the stop flag, cancels any pending retry timer,
closes the socket, and is idempotent; a `loop()` firing after `stop()`
takes no action, and a `__dial` on a stopped client performs no exchange
(hence no socket write) — so no further connection attempt or write ever
occurs. -/
theorem stop_halts_session (st : ClientState) :
    (stop st).endRequest = true
    ∧ (stop st).loopTimeout = false
    ∧ (stop st).isConnected = false
    ∧ (stop st).socketEnded = true
    ∧ stop (stop st) = stop st
    ∧ loopAction (stop st) = LoopAction.idle
    ∧ (∀ oracle, dial (stop st) oracle = (stop st, [], none)) := by
  refine ⟨rfl, rfl, rfl, rfl, rfl, rfl, fun oracle => ?_⟩
  simp [dial, stop]

/-! ## High-level accessors (`hottoht.ts`, class `Hottoh`)

Each accessor reads a fixed position of one of the three snapshots held by
the client; an absent snapshot (`null`) is `none`.  A JavaScript indexing
miss (`undefined`) is also modelled as `none`. -/

/-- Modelled from the spec: `const.ts` (enum `StoveRegisters`) is not among
the provided sources; the register index of each field follows the
positions documented for every accessor in the example script
(`_getFirmwareVersion` reads `Info[1]`, `_getWifiSignal` `Info[2]`,
`_getStoveState` `Data[5]`, `_getStoveIsOn` `Data[6]`, `_getEcoMode`
`Data[7]`, `_getChronoMode` `Data[8]`). -/
def INDEX_FW : Nat := 1

/-- Modelled from the spec: see `INDEX_FW`. -/
def INDEX_STOVE_STATE : Nat := 5

/-- Modelled from the spec: see `INDEX_FW`. -/
def INDEX_STOVE_ON : Nat := 6

/-- Modelled from the spec: see `INDEX_FW`. -/
def INDEX_ECO_MODE : Nat := 7

/-- Modelled from the spec: see `INDEX_FW`. -/
def INDEX_TIMER_ON : Nat := 8

/-- JavaScript `parseInt(s)`: optional sign followed by the longest leading
run of decimal digits; `none` models `NaN`. -/
def parseIntJS (s : String) : Option Int :=
  let digitsVal : List Char → Option Nat := fun cs =>
    let ds := cs.takeWhile Char.isDigit
    if ds = [] then none
    else some (ds.foldl (fun a c => a * 10 + (c.toNat - 48)) 0)
  match s.data with
  | '-' :: rest => (digitsVal rest).map (fun n => -(n : Int))
  | '+' :: rest => (digitsVal rest).map (fun n => (n : Int))
  | cs => (digitsVal cs).map (fun n => (n : Int))

/-- Modelled from the spec: `const.ts` (enum `StoveState`) is not among the
provided sources, so the numeric value behind each of the twenty-one
`case` labels of `Hottoh._getStoveState` is unknown; the labels are given
consecutive codes `0..20` in source order.  The names are the literal
strings returned by the switch in `hottoht.ts` lines 99–122. -/
def stoveStateTable : List (Int × String) :=
  [(0, "switched_off"),
   (1, "starting_1_check"),
   (2, "starting_2_clean_all"),
   (3, "starting_3_loading"),
   (4, "starting_4_waiting"),
   (5, "starting_5_waiting"),
   (6, "starting_6_ignition"),
   (7, "starting_7_stabilization"),
   (8, "power"),
   (9, "stopping_1_wait_standby"),
   (10, "stopping_2_wait_standby"),
   (11, "eco_stop_1_standby"),
   (12, "eco_stop_2"),
   (13, "eco_stop_3"),
   (14, "low_pellet"),
   (15, "end_pellet"),
   (16, "black_out"),
   (17, "error_ignition_failed"),
   (18, "anti_freeze"),
   (19, "error_cover_open"),
   (20, "error_no_pellet")]

/-- The switch of `Hottoh._getStoveState` as a lookup: `some name` when a
case matches, `none` for the `default` branch. -/
def stoveStateName (n : Int) : Option String :=
  (stoveStateTable.find? (fun e => e.1 == n)).map (fun e => e.2)

/-- `Hottoh._getStoveState`: `"not_connected"` when the `data` snapshot is
absent; otherwise the switch on `parseInt(data[INDEX_STOVE_STATE])`, whose
`default` branch returns the raw stored field. -/
def getStoveState (data : Option (List String)) : Option String :=
  match data with
  | none => some "not_connected"
  | some l =>
    match (l.get? INDEX_STOVE_STATE).bind parseIntJS with
    | some n =>
      match stoveStateName n with
      | some name => some name
      | none => l.get? INDEX_STOVE_STATE
    | none => l.get? INDEX_STOVE_STATE

/-- `Hottoh._getFirmwareVersion`: `null` when the `info` snapshot is
absent, otherwise `info[INDEX_FW]`. -/
def getFirmwareVersion (info : Option (List String)) : Option String :=
  match info with
  | none => none
  | some l => l.get? INDEX_FW

/-- `Hottoh._getStoveIsOn`: `null` when `data` is absent, otherwise
`data[INDEX_STOVE_ON] === "1" ? "on" : "off"`. -/
def getStoveIsOn (data : Option (List String)) : Option String :=
  match data with
  | none => none
  | some l => some (if l.get? INDEX_STOVE_ON == some "1" then "on" else "off")

/-- `Hottoh._getEcoMode`. -/
def getEcoModeRaw (data : Option (List String)) : Option String :=
  match data with
  | none => none
  | some l => some (if l.get? INDEX_ECO_MODE == some "1" then "on" else "off")

/-- `Hottoh._getChronoMode`. -/
def getChronoModeRaw (data : Option (List String)) : Option String :=
  match data with
  | none => none
  | some l => some (if l.get? INDEX_TIMER_ON == some "1" then "on" else "off")

/-- `Hottoh.getIsOn`: `this._getStoveIsOn() === "on"`. -/
def getIsOn (data : Option (List String)) : Bool :=
  getStoveIsOn data == some "on"

/-- `Hottoh.getEcoMode`: `this._getEcoMode() === "on"`. -/
def getEcoMode (data : Option (List String)) : Bool :=
  getEcoModeRaw data == some "on"

/-- `Hottoh.getChronoMode`: `this._getChronoMode() === "on"`. -/
def getChronoMode (data : Option (List String)) : Bool :=
  getChronoModeRaw data == some "on"

/-! ## Bitfield decoder (`hottoht.ts` lines 601–661)

`_getStoveTypeBitArray` converts the stove-type register to a 16-entry
boolean array, most significant bit first (`for (let i = 15; i >= 0; i--)
bits.push(((type >> i) & 1) === 1)`); the capability getters each read one
fixed index of that array. -/

/-- `Hottoh._getStoveTypeBitArray` on a present stove-type value. -/
def getStoveTypeBitArray (stoveType : Nat) : List Bool :=
  (List.range 16).map (fun j => ((stoveType >>> (15 - j)) &&& 1) == 1)

/-- `Hottoh.isBoilerEnabled`: bit-array index 6. -/
def isBoilerEnabled (t : Nat) : Bool := (getStoveTypeBitArray t).getD 6 false

/-- `Hottoh.isDomesticHotWaterEnabled`: index 5. -/
def isDomesticHotWaterEnabled (t : Nat) : Bool := (getStoveTypeBitArray t).getD 5 false

/-- `Hottoh.getFanNumber`: 2-bit field, index 2 the MSB and index 3 the LSB. -/
def getFanNumber (t : Nat) : Nat :=
  let bits := getStoveTypeBitArray t
  (if bits.getD 2 false then 2 else 0) + (if bits.getD 3 false then 1 else 0)

/-- `Hottoh.isTempRoom1Enabled`: index 0. -/
def isTempRoom1Enabled (t : Nat) : Bool := (getStoveTypeBitArray t).getD 0 false

/-- `Hottoh.isTempRoom2Enabled`: index 7. -/
def isTempRoom2Enabled (t : Nat) : Bool := (getStoveTypeBitArray t).getD 7 false

/-- `Hottoh.isTempRoom3Enabled`: index 8. -/
def isTempRoom3Enabled (t : Nat) : Bool := (getStoveTypeBitArray t).getD 8 false

/-- `Hottoh.isTempWaterEnabled`: index 1. -/
def isTempWaterEnabled (t : Nat) : Bool := (getStoveTypeBitArray t).getD 1 false

/-- `Hottoh.isPumpEnabled`: index 11. -/
def isPumpEnabled (t : Nat) : Bool := (getStoveTypeBitArray t).getD 11 false

/-- `Hottoh.isFlowSwitchEnabled`: index 10. -/
def isFlowSwitchEnabled (t : Nat) : Bool := (getStoveTypeBitArray t).getD 10 false

/-- `Hottoh.isPufferEnabled`: index 9. -/
def isPufferEnabled (t : Nat) : Bool := (getStoveTypeBitArray t).getD 9 false

/-- `Hottoh.isBoilerTempEnabled`: index 4. -/
def isBoilerTempEnabled (t : Nat) : Bool := (getStoveTypeBitArray t).getD 4 false

/-- `Hottoh.isDhwEnabled`: index 3. -/
def isDhwEnabled (t : Nat) : Bool := (getStoveTypeBitArray t).getD 3 false

/-- `Hottoh.isAirEx1Enabled`: index 12. -/
def isAirEx1Enabled (t : Nat) : Bool := (getStoveTypeBitArray t).getD 12 false

/-- `Hottoh.isAirEx2Enabled`: index 13. -/
def isAirEx2Enabled (t : Nat) : Bool := (getStoveTypeBitArray t).getD 13 false

/-- `Hottoh.isAirEx3Enabled`: index 14. -/
def isAirEx3Enabled (t : Nat) : Bool := (getStoveTypeBitArray t).getD 14 false

/-- `Hottoh.isGenericPumpEnabled`: index 15. -/
def isGenericPumpEnabled (t : Nat) : Bool := (getStoveTypeBitArray t).getD 15 false

/-- The fifteen boolean capability getters, ordered by the bit-array index
each one reads (`capabilityFlagBit`). -/
def capabilityFlags (t : Nat) : List Bool :=
  [isTempRoom1Enabled t, isTempWaterEnabled t, isDhwEnabled t,
   isBoilerTempEnabled t, isDomesticHotWaterEnabled t, isBoilerEnabled t,
   isTempRoom2Enabled t, isTempRoom3Enabled t, isPufferEnabled t,
   isFlowSwitchEnabled t, isPumpEnabled t, isAirEx1Enabled t,
   isAirEx2Enabled t, isAirEx3Enabled t, isGenericPumpEnabled t]

/-- The bit-array index read by each entry of `capabilityFlags` (index 2
belongs only to the fan-count field and has no boolean getter). -/
def capabilityFlagBit : List Nat :=
  [0, 1, 3, 4, 5, 6, 7, 8, 9, 10, 11, 12, 13, 14, 15]

/-- C8: the bitfield decoder on stove-type value `0` yields every
capability flag `false` and fan count `0`; on a 16-bit value with exactly
one bit set — bit `15 - j` of the value, i.e. index `j` of the bit array —
exactly the capability flags that read index `j` are `true` (one flag for
every index except the fan-count MSB at index 2) and all others `false`. -/
theorem bitfield_single_bit (j : Nat) (hj : j < 16) :
    capabilityFlags 0 = List.replicate 15 false
    ∧ getFanNumber 0 = 0
    ∧ capabilityFlags (2 ^ (15 - j)) = capabilityFlagBit.map (fun i => i == j) := by
  refine ⟨by decide, by decide, ?_⟩
  interval_cases j <;> decide

/-- Closed witness for `bitfield_single_bit` at `j = 3` (value `2 ^ 12`):
only `isDhwEnabled` — the flag reading bit-array index 3 — is set. -/
theorem bitfield_single_bit_witness :
    3 < 16
    ∧ capabilityFlags (2 ^ (15 - 3)) = capabilityFlagBit.map (fun i => i == 3) :=
  ⟨by decide, (bitfield_single_bit 3 (by decide)).2.2⟩

/-! ## Stove-state lookup (claim C9) -/

/-- C9 counterexample: there are not twenty-two mapped stove-state codes —
no 22-element set of codes is mapped by the lookup, since the switch in
`Hottoh._getStoveState` has exactly twenty-one cases. -/
theorem stove_state_not_twentytwo :
    ¬ ∃ s : Finset ℤ, s.card = 22 ∧ ∀ c ∈ s, (stoveStateName c).isSome := by
  rintro ⟨s, hcard, hall⟩
  have hsub : s ⊆ (stoveStateTable.map Prod.fst).toFinset := by
    intro c hc
    have h := hall c hc
    rw [stoveStateName] at h
    rcases hf : stoveStateTable.find? (fun e => e.1 == c) with _ | e
    · rw [hf] at h
      simp at h
    · have hmem := List.mem_of_find?_eq_some hf
      have heq : e.1 = c := by simpa using List.find?_some hf
      rw [List.mem_toFinset]
      exact List.mem_map.mpr ⟨e, hmem, heq⟩
  have hle := Finset.card_le_card hsub
  have h21 : (stoveStateTable.map Prod.fst).toFinset.card = 21 := by decide
  omega

/-- C9 (amended): given a present `data` snapshot, the stove-state lookup
maps every one of the twenty-one documented numeric lifecycle codes to its
exact documented state name, and any unmapped numeric value falls back to
the raw string stored in the stove-state field. -/
theorem stove_state_lookup :
    (∀ e ∈ stoveStateTable, ∀ (l : List String) (s : String),
      l.get? INDEX_STOVE_STATE = some s → parseIntJS s = some e.1 →
      getStoveState (some l) = some e.2)
    ∧ (∀ (l : List String) (s : String) (c : Int),
      l.get? INDEX_STOVE_STATE = some s → parseIntJS s = some c →
      stoveStateName c = none →
      getStoveState (some l) = some s) := by
  have hall : ∀ e ∈ stoveStateTable, stoveStateName e.1 = some e.2 := by decide
  constructor
  · intro e he l s hs hp
    simp only [List.get?_eq_getElem?] at hs
    simp [getStoveState, hs, hp, hall e he]
  · intro l s c hs hp hnone
    simp only [List.get?_eq_getElem?] at hs
    simp [getStoveState, hs, hp, hnone]

/-- Closed witness for `stove_state_lookup`: a snapshot whose stove-state
field holds `"6"` decodes to `"starting_6_ignition"`, and one holding the
unmapped `"99"` falls back to the raw string `"99"`. -/
theorem stove_state_lookup_witness :
    (["0", "0", "0", "0", "0", "6"].get? INDEX_STOVE_STATE = some "6")
    ∧ getStoveState (some ["0", "0", "0", "0", "0", "6"]) = some "starting_6_ignition"
    ∧ getStoveState (some ["0", "0", "0", "0", "0", "99"]) = some "99" := by
  refine ⟨rfl, ?_, ?_⟩
  · exact stove_state_lookup.1 (6, "starting_6_ignition") (by decide)
      ["0", "0", "0", "0", "0", "6"] "6" rfl (by decide)
  · exact stove_state_lookup.2 ["0", "0", "0", "0", "0", "99"] "99" 99 rfl
      (by decide) (by decide)

/-- C10: on an absent snapshot every accessor returns without failing, but
the "unavailable" value differs: `_getFirmwareVersion` returns `null`,
`_getStoveState` returns the string `"not_connected"`, and the boolean
getters `getIsOn`/`getEcoMode`/`getChronoMode` return `false` — the same
value a genuine off/disabled reading produces, as the last conjunct shows
on a present snapshot whose stove-on field is `"0"`. -/
theorem absent_snapshot_accessors :
    getFirmwareVersion none = none
    ∧ getStoveState none = some "not_connected"
    ∧ getIsOn none = false
    ∧ getEcoMode none = false
    ∧ getChronoMode none = false
    ∧ getIsOn (some ["0", "0", "0", "0", "0", "0", "0", "0", "0"]) = false := by
  decide

end Hottoh
